import Mathlib

/-!
Verification of the LS-SEG Cobb-angle geometry core
(`lsseg_slicer_extension/lsseg/geometry.py`, class `CobbAngleCalculator`).

Points are modelled as lists of real numbers (the numpy arrays of the
source hold 2 or 3 float coordinates; floating point is idealised as ℝ).
Operations that can raise a Python built-in error (out-of-range numpy
indexing, i.e. `IndexError`) or that may leave an attribute unset are
modelled with `Option`: `none` stands for "a built-in exception was
raised or the attribute was left unset".  The source never raises its
own `GeometryException`, so no embedded function has a
`GeometryException` outcome.
-/

noncomputable section

namespace LSSEG

/-- Componentwise vector addition on coordinate lists (numpy `+` on arrays). -/
def addL (a b : List ℝ) : List ℝ := List.zipWith (fun x y => x + y) a b

/-- Componentwise vector subtraction on coordinate lists (numpy `-` on arrays). -/
def subL (a b : List ℝ) : List ℝ := List.zipWith (fun x y => x - y) a b

/-- Scalar multiplication on coordinate lists (numpy scalar `*` array). -/
def smulL (c : ℝ) (v : List ℝ) : List ℝ := v.map (fun x => c * x)

/-- Dot product of two coordinate lists (`np.dot`). -/
def dotL (a b : List ℝ) : ℝ := (List.zipWith (fun x y => x * y) a b).sum

/-- Euclidean norm of a coordinate list (`np.linalg.norm`). -/
def normL (v : List ℝ) : ℝ := Real.sqrt (dotL v v)

/-- Sum of squared components of a coordinate list; the squared residual
norm that a least-squares solve minimises. -/
def sumSq (v : List ℝ) : ℝ := dotL v v

/-- The clamp `np.clip(x, lo, hi) = min(hi, max(lo, x))`. -/
def clip (x lo hi : ℝ) : ℝ := min hi (max lo x)

/-- Radians-to-degrees conversion (`np.degrees`). -/
def degrees (x : ℝ) : ℝ := x * (180 / Real.pi)

/-- Total element count of a list-of-rows array (numpy `ndarray.size`). -/
def arrSize (a : List (List ℝ)) : Nat := (a.map List.length).sum

/-- Split a flat list into consecutive rows of three elements
(`np.array(v).reshape(8, 3)` applied to a 24-element tuple). -/
def chunks3 : List ℝ → List (List ℝ)
  | a :: b :: c :: rest => [a, b, c] :: chunks3 rest
  | _ => []

/-- Split a flat list into consecutive rows of two elements
(`np.array(v).reshape(4, 2)` applied to an 8-element tuple). -/
def chunks2 : List ℝ → List (List ℝ)
  | a :: b :: rest => [a, b] :: chunks2 rest
  | _ => []

/-- Embedding of `CobbAngleCalculator.__calc_uv_bbox_vertices`.  The external
shape-statistics primitive (`LabelShapeStatisticsImageFilter` /
`GetOrientedBoundingBoxVertices`) is an external collaborator; its returned
flat vertex tuple is the parameter.  The method stores a (8, 3) reshape when
the tuple has 24 entries, a (4, 2) reshape when it has 8 entries, and
otherwise falls through both `if` statements leaving
`uv_oriented_bbox_vertices` unset (`none`); no exception is raised. -/
def calc_uv_bbox_vertices (bounding_box_vertices : List ℝ) :
    Option (List (List ℝ)) :=
  if bounding_box_vertices.length = 24 then
    some (chunks3 bounding_box_vertices)
  else if bounding_box_vertices.length = 8 then
    some (chunks2 bounding_box_vertices)
  else
    none

/-- Embedding of `CobbAngleCalculator.__calc_lv_bbox_vertices`; the body is
the same computation as the UV variant, applied to the lower-vertebra label's
vertex tuple. -/
def calc_lv_bbox_vertices (bounding_box_vertices : List ℝ) :
    Option (List (List ℝ)) :=
  if bounding_box_vertices.length = 24 then
    some (chunks3 bounding_box_vertices)
  else if bounding_box_vertices.length = 8 then
    some (chunks2 bounding_box_vertices)
  else
    none

/-- Embedding of `CobbAngleCalculator.__set_bbox_tan_line_points`.  The two
stored vertex arrays are the parameters; the result is the 4-tuple
`(uv_p1, uv_p2, lv_p1, lv_p2)` the method assigns and returns.  The branch is
chosen by `uv_oriented_bbox_vertices.size` alone (24 or 8); every numpy
element access is modelled with `Option` indexing (`none` = `IndexError`);
when the size matches neither branch the method returns `None`. -/
def set_bbox_tan_line_points (uv lv : List (List ℝ)) :
    Option (List ℝ × List ℝ × List ℝ × List ℝ) :=
  if arrSize uv = 24 then do
    let uv0 ← uv[0]?
    let uv1 ← uv[1]?
    let lv6 ← lv[6]?
    let lv7 ← lv[7]?
    let a0 ← uv0[0]?; let a1 ← uv0[1]?; let a2 ← uv0[2]?
    let b0 ← uv1[0]?; let b1 ← uv1[1]?; let b2 ← uv1[2]?
    let c0 ← lv6[0]?; let c1 ← lv6[1]?; let c2 ← lv6[2]?
    let d0 ← lv7[0]?; let d1 ← lv7[1]?; let d2 ← lv7[2]?
    pure ([a0, a1, a2], [b0, b1, b2], [c0, c1, c2], [d0, d1, d2])
  else if arrSize uv = 8 then do
    let uv0 ← uv[0]?
    let uv1 ← uv[1]?
    let lv2 ← lv[2]?
    let lv3 ← lv[3]?
    let a0 ← uv0[0]?; let a1 ← uv0[1]?
    let b0 ← uv1[0]?; let b1 ← uv1[1]?
    let c0 ← lv2[0]?; let c1 ← lv2[1]?
    let d0 ← lv3[0]?; let d1 ← lv3[1]?
    pure ([a0, a1], [b0, b1], [c0, c1], [d0, d1])
  else
    none

/-- Embedding of `CobbAngleCalculator.__calc_angle_between_lines`: the angle
in degrees between the two stored tangent lines, computed from direction
vectors, dot product, norms, the clamp to [-1, 1] and the inverse cosine.
The function is total: the source contains no degeneracy check and raises
nothing (a zero-over-zero division yields NaN in numpy; in this real-number
embedding division by zero yields 0). -/
def calc_angle_between_lines (uv_p1 uv_p2 lv_p1 lv_p2 : List ℝ) : ℝ :=
  let line1 := subL uv_p2 uv_p1
  let line2 := subL lv_p2 lv_p1
  let dot_product := dotL line1 line2
  let norm_line1 := normL line1
  let norm_line2 := normL line2
  let cos_theta := dot_product / (norm_line1 * norm_line2)
  let cos_theta := clip cos_theta (-1) 1
  let theta_rad := Real.arccos cos_theta
  degrees theta_rad

/-- The residual closure `errFunc` defined inside
`CobbAngleCalculator.__calc_intersection`:
`errFunc((s, t)) = p1 + s * (p2 - p1) - (q1 + t * (q2 - q1))`. -/
def errFunc (p1 p2 q1 q2 : List ℝ) (estimates : ℝ × ℝ) : List ℝ :=
  let s := estimates.1
  let t := estimates.2
  subL (addL p1 (smulL s (subL p2 p1))) (addL q1 (smulL t (subL q2 q1)))

/-- Embedding of `CobbAngleCalculator.__calc_intersection`.  The external
numerical routine `scipy.optimize.least_squares` is a collaborator, passed
here as the parameter `least_squares` (its arguments are the residual
function and the initial estimates).  The source seeds it with
`estimates = [1, 1]`, unpacks the fitted `(s, t)`, and builds the returned
point componentwise as the midpoint of the two line points — reading
components 0, 1 and **2** of every input point unconditionally, so on
2-element (2-D) points the `p1[2]` access raises `IndexError` (`none`). -/
def calc_intersection (uv_p1 uv_p2 lv_p1 lv_p2 : List ℝ)
    (least_squares : ((ℝ × ℝ) → List ℝ) → (ℝ × ℝ) → (ℝ × ℝ)) :
    Option (List ℝ) :=
  let estimates : ℝ × ℝ := (1, 1)
  let sols := least_squares (errFunc uv_p1 uv_p2 lv_p1 lv_p2) estimates
  let s := sols.1
  let t := sols.2
  do
    let p10 ← uv_p1[0]?; let p20 ← uv_p2[0]?
    let q10 ← lv_p1[0]?; let q20 ← lv_p2[0]?
    let x1 := p10 + s * (p20 - p10)
    let x2 := q10 + t * (q20 - q10)
    let p11 ← uv_p1[1]?; let p21 ← uv_p2[1]?
    let q11 ← lv_p1[1]?; let q21 ← lv_p2[1]?
    let y1 := p11 + s * (p21 - p11)
    let y2 := q11 + t * (q21 - q11)
    let p12 ← uv_p1[2]?; let p22 ← uv_p2[2]?
    let q12 ← lv_p1[2]?; let q22 ← lv_p2[2]?
    let z1 := p12 + s * (p22 - p12)
    let z2 := q12 + t * (q22 - q12)
    pure [(x1 + x2) / 2, (y1 + y2) / 2, (z1 + z2) / 2]

/-- Minimal model of a `SimpleITK` image: the only property the constructor
reads is `GetDimension()`. -/
structure SImage where
  dim : Nat

/-- The image's `GetDimension()` accessor. -/
def SImage.GetDimension (img : SImage) : Nat := img.dim

/-- State of a `CobbAngleCalculator` instance: the attributes assigned in
`__init__` and mutated by `execute()`.  `Option` fields start as Python
`None`. -/
structure CobbAngleCalculator where
  image : SImage
  label_map : SImage
  uv_label_index : Nat
  lv_label_index : Nat
  dimension : Nat
  uv_oriented_bbox_vertices : Option (List (List ℝ))
  lv_oriented_bbox_vertices : Option (List (List ℝ))
  uv_p1 : Option (List ℝ)
  uv_p2 : Option (List ℝ)
  lv_p1 : Option (List ℝ)
  lv_p2 : Option (List ℝ)
  intersection_point : Option (List ℝ)
  cobb_angle : ℝ

/-- Embedding of `CobbAngleCalculator.__init__`: stores the inputs, caches
`image.GetDimension()`, sets every geometric attribute to `None`, and sets
`cobb_angle = 0`. -/
def CobbAngleCalculator.init (image label_map : SImage)
    (uv_label_index lv_label_index : Nat) : CobbAngleCalculator where
  image := image
  label_map := label_map
  uv_label_index := uv_label_index
  lv_label_index := lv_label_index
  dimension := image.GetDimension
  uv_oriented_bbox_vertices := none
  lv_oriented_bbox_vertices := none
  uv_p1 := none
  uv_p2 := none
  lv_p1 := none
  lv_p2 := none
  intersection_point := none
  cobb_angle := 0

/-- Embedding of `CobbAngleCalculator.get_cobb_angle`: returns the
`cobb_angle` attribute unconditionally, with no executed-state check. -/
def CobbAngleCalculator.get_cobb_angle (c : CobbAngleCalculator) : ℝ :=
  c.cobb_angle

/-- A 3-D oriented-bounding-box vertex array of shape (8, 3), built from a
vertex-indexed family of coordinates (input fixture for the selection
theorems). -/
def box3 (u : Fin 8 → Fin 3 → ℝ) : List (List ℝ) :=
  [[u 0 0, u 0 1, u 0 2], [u 1 0, u 1 1, u 1 2], [u 2 0, u 2 1, u 2 2],
   [u 3 0, u 3 1, u 3 2], [u 4 0, u 4 1, u 4 2], [u 5 0, u 5 1, u 5 2],
   [u 6 0, u 6 1, u 6 2], [u 7 0, u 7 1, u 7 2]]

/-- A 2-D oriented-bounding-box vertex array of shape (4, 2), built from a
vertex-indexed family of coordinates (input fixture for the selection
theorems). -/
def box2 (u : Fin 4 → Fin 2 → ℝ) : List (List ℝ) :=
  [[u 0 0, u 0 1], [u 1 0, u 1 1], [u 2 0, u 2 1], [u 3 0, u 3 1]]

/-- C1: for every pair of 3-D oriented bounding boxes (8 vertices each) the
tangent-line selection returns vertices 0 and 1 of the upper box and
vertices 6 and 7 of the lower box, and for every pair of 2-D boxes
(4 vertices each) it returns vertices 0 and 1 of the upper box and
vertices 2 and 3 of the lower box; the selection is a pure index lookup,
a deterministic function of the two boxes. -/
theorem set_bbox_tan_line_points_fixed_indices :
    (∀ (u l : Fin 8 → Fin 3 → ℝ),
      set_bbox_tan_line_points (box3 u) (box3 l) =
        some ([u 0 0, u 0 1, u 0 2], [u 1 0, u 1 1, u 1 2],
              [l 6 0, l 6 1, l 6 2], [l 7 0, l 7 1, l 7 2])) ∧
    (∀ (u l : Fin 4 → Fin 2 → ℝ),
      set_bbox_tan_line_points (box2 u) (box2 l) =
        some ([u 0 0, u 0 1], [u 1 0, u 1 1],
              [l 2 0, l 2 1], [l 3 0, l 3 1])) := by
  exact ⟨fun u l => rfl, fun u l => rfl⟩

/-- The dot product on coordinate lists is commutative. -/
lemma dotL_comm (a b : List ℝ) : dotL a b = dotL b a := by
  induction a generalizing b with
  | nil => cases b <;> simp [dotL]
  | cons x xs ih =>
    cases b with
    | nil => simp [dotL]
    | cons y ys =>
      have h := ih ys
      simp only [dotL, List.zipWith_cons_cons, List.sum_cons] at h ⊢
      rw [mul_comm x y, h]

/-- C2: for tangent lines with non-zero direction vectors the angle
computation returns `degrees (arccos (clip (d1·d2 / (‖d1‖ * ‖d2‖)) (-1) 1))`
— the cosine is clamped to [-1, 1] before the inverse cosine — and the
returned value lies in [0, 180] degrees. -/
theorem calc_angle_formula_and_range (uv_p1 uv_p2 lv_p1 lv_p2 : List ℝ)
    (h1 : normL (subL uv_p2 uv_p1) ≠ 0) (h2 : normL (subL lv_p2 lv_p1) ≠ 0) :
    calc_angle_between_lines uv_p1 uv_p2 lv_p1 lv_p2 =
      degrees (Real.arccos (clip
        (dotL (subL uv_p2 uv_p1) (subL lv_p2 lv_p1) /
          (normL (subL uv_p2 uv_p1) * normL (subL lv_p2 lv_p1))) (-1) 1)) ∧
    0 ≤ calc_angle_between_lines uv_p1 uv_p2 lv_p1 lv_p2 ∧
    calc_angle_between_lines uv_p1 uv_p2 lv_p1 lv_p2 ≤ 180 := by
  refine ⟨rfl, ?_, ?_⟩
  · have h := Real.arccos_nonneg (clip
      (dotL (subL uv_p2 uv_p1) (subL lv_p2 lv_p1) /
        (normL (subL uv_p2 uv_p1) * normL (subL lv_p2 lv_p1))) (-1) 1)
    have hpi : (0:ℝ) ≤ 180 / Real.pi := by positivity
    simp only [calc_angle_between_lines, degrees]
    exact mul_nonneg h hpi
  · have h := Real.arccos_le_pi (clip
      (dotL (subL uv_p2 uv_p1) (subL lv_p2 lv_p1) /
        (normL (subL uv_p2 uv_p1) * normL (subL lv_p2 lv_p1))) (-1) 1)
    have hpi : (0:ℝ) ≤ 180 / Real.pi := by positivity
    have hmul := mul_le_mul_of_nonneg_right h hpi
    have hval : Real.pi * (180 / Real.pi) = 180 := by
      field_simp
    simp only [calc_angle_between_lines, degrees]
    linarith

/-- Witness for C2 at the perpendicular axis-aligned tangent lines
(0,0,0)-(1,0,0) and (0,0,0)-(0,1,0). -/
theorem calc_angle_formula_and_range_witness :
    0 ≤ calc_angle_between_lines [0, 0, 0] [1, 0, 0] [0, 0, 0] [0, 1, 0] ∧
    calc_angle_between_lines [0, 0, 0] [1, 0, 0] [0, 0, 0] [0, 1, 0] ≤ 180 := by
  have h1 : normL (subL [(1:ℝ), 0, 0] [0, 0, 0]) ≠ 0 := by
    norm_num [normL, dotL, subL, List.zipWith, Real.sqrt_one]
  have h2 : normL (subL [(0:ℝ), 1, 0] [0, 0, 0]) ≠ 0 := by
    norm_num [normL, dotL, subL, List.zipWith, Real.sqrt_one]
  exact ⟨(calc_angle_formula_and_range _ _ _ _ h1 h2).2.1,
         (calc_angle_formula_and_range _ _ _ _ h1 h2).2.2⟩

/-- C9: the angle computation is symmetric in its two tangent lines. -/
theorem calc_angle_symm (p1 p2 q1 q2 : List ℝ)
    (h1 : normL (subL p2 p1) ≠ 0) (h2 : normL (subL q2 q1) ≠ 0) :
    calc_angle_between_lines p1 p2 q1 q2 =
      calc_angle_between_lines q1 q2 p1 p2 := by
  simp only [calc_angle_between_lines]
  rw [dotL_comm (subL p2 p1) (subL q2 q1),
      mul_comm (normL (subL p2 p1)) (normL (subL q2 q1))]

/-- Witness for C9 at the perpendicular axis-aligned tangent lines
(0,0,0)-(1,0,0) and (0,0,0)-(0,1,0). -/
theorem calc_angle_symm_witness :
    calc_angle_between_lines [0, 0, 0] [1, 0, 0] [0, 0, 0] [0, 1, 0] =
      calc_angle_between_lines [0, 0, 0] [0, 1, 0] [0, 0, 0] [1, 0, 0] := by
  have h1 : normL (subL [(1:ℝ), 0, 0] [0, 0, 0]) ≠ 0 := by
    norm_num [normL, dotL, subL, List.zipWith, Real.sqrt_one]
  have h2 : normL (subL [(0:ℝ), 1, 0] [0, 0, 0]) ≠ 0 := by
    norm_num [normL, dotL, subL, List.zipWith, Real.sqrt_one]
  exact calc_angle_symm _ _ _ _ h1 h2

/-- C4 (code bug): the source performs no zero-length check before the
division, and raises nothing on a degenerate tangent line.  At the
degenerate input where the upper tangent's endpoints coincide, the code
divides 0 by 0 — numpy returns NaN without any exception; in this
real-number embedding (division by zero yields 0, so the clamped cosine is
0) the total function returns 90.  In neither reading is a
`GeometryException` raised. -/
theorem calc_angle_no_degenerate_check :
    calc_angle_between_lines [0, 0, 0] [0, 0, 0] [0, 0, 0] [1, 0, 0] = 90 := by
  have hline1 : subL [(0:ℝ), 0, 0] [0, 0, 0] = [0, 0, 0] := by
    norm_num [subL, List.zipWith]
  have hline2 : subL [(1:ℝ), 0, 0] [0, 0, 0] = [1, 0, 0] := by
    norm_num [subL, List.zipWith]
  have hdot : dotL [(0:ℝ), 0, 0] [1, 0, 0] = 0 := by
    norm_num [dotL, List.zipWith]
  have hn1 : normL [(0:ℝ), 0, 0] = 0 := by
    norm_num [normL, dotL, List.zipWith, Real.sqrt_zero]
  have hn2 : normL [(1:ℝ), 0, 0] = 1 := by
    norm_num [normL, dotL, List.zipWith, Real.sqrt_one]
  simp only [calc_angle_between_lines, hline1, hline2, hdot, hn1, hn2]
  norm_num [clip, degrees, Real.arccos_zero]
  field_simp
  ring

/-- C10: on a freshly constructed calculator on which `execute()` has not
run, `get_cobb_angle` returns the constructor's initial value 0 without any
error, and that value coincides with a genuinely computed angle of 0 degrees
(the angle between two parallel tangent lines), so the unexecuted state is
indistinguishable from a computed 0-degree result. -/
theorem get_cobb_angle_unexecuted_zero :
    ∀ (img lm : SImage) (uvi lvi : Nat),
      (CobbAngleCalculator.init img lm uvi lvi).get_cobb_angle = 0 ∧
      (CobbAngleCalculator.init img lm uvi lvi).get_cobb_angle =
        calc_angle_between_lines [0, 0, 0] [1, 0, 0] [0, 1, 0] [1, 1, 0] := by
  intro img lm uvi lvi
  have hline1 : subL [(1:ℝ), 0, 0] [0, 0, 0] = [1, 0, 0] := by
    norm_num [subL, List.zipWith]
  have hline2 : subL [(1:ℝ), 1, 0] [0, 1, 0] = [1, 0, 0] := by
    norm_num [subL, List.zipWith]
  have hdot : dotL [(1:ℝ), 0, 0] [1, 0, 0] = 1 := by
    norm_num [dotL, List.zipWith]
  have hn : normL [(1:ℝ), 0, 0] = 1 := by
    norm_num [normL, dotL, List.zipWith, Real.sqrt_one]
  have hangle : calc_angle_between_lines [0, 0, 0] [1, 0, 0] [0, 1, 0] [1, 1, 0] = 0 := by
    simp only [calc_angle_between_lines, hline1, hline2, hdot, hn]
    norm_num [clip, degrees, Real.arccos_one]
  exact ⟨rfl, by rw [hangle]; rfl⟩

/-- C5 (code bug): the extraction does return 8 rows of 3 for a 24-entry
(3-D) vertex tuple and 4 rows of 2 for an 8-entry (2-D) tuple, but for any
other vertex count (here 12) both `if` statements fall through and the
attribute is left unset (`none`) — no `GeometryException` is raised,
contrary to the claim that a malformed count is an unrecoverable error. -/
theorem bbox_vertices_other_count_left_unset :
    (calc_uv_bbox_vertices
        [0, 1, 2, 3, 4, 5, 6, 7, 8, 9, 10, 11, 12, 13, 14, 15, 16, 17, 18,
         19, 20, 21, 22, 23] =
      some [[0, 1, 2], [3, 4, 5], [6, 7, 8], [9, 10, 11], [12, 13, 14],
            [15, 16, 17], [18, 19, 20], [21, 22, 23]]) ∧
    (calc_uv_bbox_vertices [0, 1, 2, 3, 4, 5, 6, 7] =
      some [[0, 1], [2, 3], [4, 5], [6, 7]]) ∧
    calc_uv_bbox_vertices [0, 1, 2, 3, 4, 5, 6, 7, 8, 9, 10, 11] = none ∧
    calc_lv_bbox_vertices [0, 1, 2, 3, 4, 5, 6, 7, 8, 9, 10, 11] = none :=
  ⟨rfl, rfl, rfl, rfl⟩

/-- C7 (code bug): on 2-D points the intersection estimator never succeeds:
whatever the least-squares solver returns, the unconditional read of
component 2 of the 2-element points raises `IndexError` (`none`).  The
concrete input is the non-parallel pair (0,0)-(2,2) and (0,2)-(2,0), whose
exact intersection (1,1) the claim says is returned. -/
theorem calc_intersection_2d_index_error :
    ∀ least_squares,
      calc_intersection [0, 0] [2, 2] [0, 2] [2, 0] least_squares = none :=
  fun _ => rfl

/-- C8 (code bug): the tangent-line selection validates nothing.  With a
3-D upper box and a 2-D lower box the row read `lv[6]` raises `IndexError`
(`none`), not a `GeometryException`; with a 2-D upper box and a 3-D lower
box it silently succeeds, returning rows 2 and 3 of the 3-D lower box
truncated to their first two coordinates; and an upper box matching neither
the 24- nor the 8-element contract falls through both branches returning
`None` with no error. -/
theorem set_bbox_mismatched_dims_no_geometry_error :
    (∀ (u : Fin 8 → Fin 3 → ℝ) (l : Fin 4 → Fin 2 → ℝ),
      set_bbox_tan_line_points (box3 u) (box2 l) = none) ∧
    (∀ (u : Fin 4 → Fin 2 → ℝ) (l : Fin 8 → Fin 3 → ℝ),
      set_bbox_tan_line_points (box2 u) (box3 l) =
        some ([u 0 0, u 0 1], [u 1 0, u 1 1],
              [l 2 0, l 2 1], [l 3 0, l 3 1])) ∧
    set_bbox_tan_line_points [[0]] [[0]] = none :=
  ⟨fun _ _ => rfl, fun _ _ => rfl, rfl⟩

/-- C6 (code bug): the intersection estimator checks neither convergence
nor residual size.  At the parallel tangent lines (0,0,0)-(1,0,0) and
(0,1,0)-(1,1,0) it returns a point for every solver output, although every
parameter choice leaves a squared residual of at least 1, so no
near-zero-residual crossing exists and the claimed `GeometryException` is
never raised. -/
theorem calc_intersection_no_residual_check :
    (∀ least_squares, ∃ pt,
      calc_intersection [0, 0, 0] [1, 0, 0] [0, 1, 0] [1, 1, 0]
        least_squares = some pt) ∧
    (∀ s t : ℝ,
      1 ≤ sumSq (errFunc [0, 0, 0] [1, 0, 0] [0, 1, 0] [1, 1, 0] (s, t))) := by
  constructor
  · intro least_squares
    exact ⟨_, rfl⟩
  · intro s t
    have hval : sumSq (errFunc [(0:ℝ), 0, 0] [1, 0, 0] [0, 1, 0] [1, 1, 0] (s, t)) =
        (0 + s * (1 - 0) - (0 + t * (1 - 0))) *
          (0 + s * (1 - 0) - (0 + t * (1 - 0))) +
        ((0 + s * (0 - 0) - (1 + t * (1 - 1))) *
          (0 + s * (0 - 0) - (1 + t * (1 - 1))) +
         ((0 + s * (0 - 0) - (0 + t * (0 - 0))) *
          (0 + s * (0 - 0) - (0 + t * (0 - 0))) + 0)) := rfl
    rw [hval]
    nlinarith [sq_nonneg (s - t)]

/-- C3: the intersection estimator hands the residual
`r(s,t) = (p1 + s(p2-p1)) - (q1 + t(q2-q1))` to the least-squares solver
seeded at `(1, 1)`, and returns the componentwise midpoint between the
point on line A at the fitted `s` and the point on line B at the fitted
`t`.  Concretely: (i) for every solver, the returned point is that
midpoint evaluated at the solver's output on seed `(1, 1)`; (ii) the
residual function passed to the solver is exactly `r(s,t)`; (iii) any
parameters `(s, t)` at which the residual is orthogonal to both direction
vectors (the normal equations of this linear least-squares problem)
globally minimise the squared residual norm — so a solver that solves the
normal equations minimises `r` in the least-squares sense. -/
theorem calc_intersection_least_squares_midpoint
    (p1x p1y p1z p2x p2y p2z q1x q1y q1z q2x q2y q2z : ℝ)
    (least_squares : ((ℝ × ℝ) → List ℝ) → (ℝ × ℝ) → (ℝ × ℝ)) :
    (calc_intersection [p1x, p1y, p1z] [p2x, p2y, p2z] [q1x, q1y, q1z]
        [q2x, q2y, q2z] least_squares =
      some [((p1x + (least_squares (errFunc [p1x, p1y, p1z] [p2x, p2y, p2z]
                [q1x, q1y, q1z] [q2x, q2y, q2z]) (1, 1)).1 * (p2x - p1x)) +
             (q1x + (least_squares (errFunc [p1x, p1y, p1z] [p2x, p2y, p2z]
                [q1x, q1y, q1z] [q2x, q2y, q2z]) (1, 1)).2 * (q2x - q1x))) / 2,
            ((p1y + (least_squares (errFunc [p1x, p1y, p1z] [p2x, p2y, p2z]
                [q1x, q1y, q1z] [q2x, q2y, q2z]) (1, 1)).1 * (p2y - p1y)) +
             (q1y + (least_squares (errFunc [p1x, p1y, p1z] [p2x, p2y, p2z]
                [q1x, q1y, q1z] [q2x, q2y, q2z]) (1, 1)).2 * (q2y - q1y))) / 2,
            ((p1z + (least_squares (errFunc [p1x, p1y, p1z] [p2x, p2y, p2z]
                [q1x, q1y, q1z] [q2x, q2y, q2z]) (1, 1)).1 * (p2z - p1z)) +
             (q1z + (least_squares (errFunc [p1x, p1y, p1z] [p2x, p2y, p2z]
                [q1x, q1y, q1z] [q2x, q2y, q2z]) (1, 1)).2 * (q2z - q1z))) / 2]) ∧
    (∀ s t : ℝ,
      errFunc [p1x, p1y, p1z] [p2x, p2y, p2z] [q1x, q1y, q1z] [q2x, q2y, q2z]
          (s, t) =
        [p1x + s * (p2x - p1x) - (q1x + t * (q2x - q1x)),
         p1y + s * (p2y - p1y) - (q1y + t * (q2y - q1y)),
         p1z + s * (p2z - p1z) - (q1z + t * (q2z - q1z))]) ∧
    (∀ s t : ℝ,
      dotL (errFunc [p1x, p1y, p1z] [p2x, p2y, p2z] [q1x, q1y, q1z]
          [q2x, q2y, q2z] (s, t)) (subL [p2x, p2y, p2z] [p1x, p1y, p1z]) = 0 →
      dotL (errFunc [p1x, p1y, p1z] [p2x, p2y, p2z] [q1x, q1y, q1z]
          [q2x, q2y, q2z] (s, t)) (subL [q2x, q2y, q2z] [q1x, q1y, q1z]) = 0 →
      ∀ u v : ℝ,
        sumSq (errFunc [p1x, p1y, p1z] [p2x, p2y, p2z] [q1x, q1y, q1z]
          [q2x, q2y, q2z] (s, t)) ≤
        sumSq (errFunc [p1x, p1y, p1z] [p2x, p2y, p2z] [q1x, q1y, q1z]
          [q2x, q2y, q2z] (u, v))) := by
  refine ⟨rfl, fun s t => rfl, ?_⟩
  intro s t h1 h2 u v
  have e1 : dotL (errFunc [p1x, p1y, p1z] [p2x, p2y, p2z] [q1x, q1y, q1z]
      [q2x, q2y, q2z] (s, t)) (subL [p2x, p2y, p2z] [p1x, p1y, p1z]) =
      (p1x + s * (p2x - p1x) - (q1x + t * (q2x - q1x))) * (p2x - p1x) +
      ((p1y + s * (p2y - p1y) - (q1y + t * (q2y - q1y))) * (p2y - p1y) +
       ((p1z + s * (p2z - p1z) - (q1z + t * (q2z - q1z))) * (p2z - p1z) +
        0)) := rfl
  have e2 : dotL (errFunc [p1x, p1y, p1z] [p2x, p2y, p2z] [q1x, q1y, q1z]
      [q2x, q2y, q2z] (s, t)) (subL [q2x, q2y, q2z] [q1x, q1y, q1z]) =
      (p1x + s * (p2x - p1x) - (q1x + t * (q2x - q1x))) * (q2x - q1x) +
      ((p1y + s * (p2y - p1y) - (q1y + t * (q2y - q1y))) * (q2y - q1y) +
       ((p1z + s * (p2z - p1z) - (q1z + t * (q2z - q1z))) * (q2z - q1z) +
        0)) := rfl
  have eS : ∀ a b : ℝ,
      sumSq (errFunc [p1x, p1y, p1z] [p2x, p2y, p2z] [q1x, q1y, q1z]
        [q2x, q2y, q2z] (a, b)) =
      (p1x + a * (p2x - p1x) - (q1x + b * (q2x - q1x))) *
        (p1x + a * (p2x - p1x) - (q1x + b * (q2x - q1x))) +
      ((p1y + a * (p2y - p1y) - (q1y + b * (q2y - q1y))) *
        (p1y + a * (p2y - p1y) - (q1y + b * (q2y - q1y))) +
       ((p1z + a * (p2z - p1z) - (q1z + b * (q2z - q1z))) *
        (p1z + a * (p2z - p1z) - (q1z + b * (q2z - q1z))) + 0)) :=
    fun _ _ => rfl
  rw [e1] at h1
  rw [e2] at h2
  rw [eS s t, eS u v]
  have k1 := congrArg (fun w => (u - s) * w) h1
  have k2 := congrArg (fun w => (v - t) * w) h2
  simp only [mul_zero] at k1 k2
  linarith [k1, k2,
    sq_nonneg ((u - s) * (p2x - p1x) - (v - t) * (q2x - q1x)),
    sq_nonneg ((u - s) * (p2y - p1y) - (v - t) * (q2y - q1y)),
    sq_nonneg ((u - s) * (p2z - p1z) - (v - t) * (q2z - q1z))]

/-- Witness for C3 at the lines (0,0,0)-(2,2,0) and (0,2,0)-(2,0,0), which
cross exactly at (1,1,0): the normal equations hold at s = t = 1/2 and the
residual there is minimal, e.g. against the parameters (3, 5). -/
theorem calc_intersection_least_squares_midpoint_witness :
    sumSq (errFunc [0, 0, 0] [2, 2, 0] [0, 2, 0] [2, 0, 0] (1 / 2, 1 / 2)) ≤
      sumSq (errFunc [0, 0, 0] [2, 2, 0] [0, 2, 0] [2, 0, 0] (3, 5)) := by
  have h1 : dotL (errFunc [(0:ℝ), 0, 0] [2, 2, 0] [0, 2, 0] [2, 0, 0]
      (1 / 2, 1 / 2)) (subL [(2:ℝ), 2, 0] [0, 0, 0]) = 0 := by
    norm_num [dotL, errFunc, subL, addL, smulL, List.zipWith]
  have h2 : dotL (errFunc [(0:ℝ), 0, 0] [2, 2, 0] [0, 2, 0] [2, 0, 0]
      (1 / 2, 1 / 2)) (subL [(2:ℝ), 0, 0] [0, 2, 0]) = 0 := by
    norm_num [dotL, errFunc, subL, addL, smulL, List.zipWith]
  exact (calc_intersection_least_squares_midpoint 0 0 0 2 2 0 0 2 0 2 0 0
    (fun _ e => e)).2.2 (1 / 2) (1 / 2) h1 h2 3 5

end LSSEG
